import Mathlib

/-!
Verification of the session-synchronized derived-data pipeline:
candle aggregation, session boundary detection, pre-market derived-level
computation, gap detection at session open, and strategy intent stepping.

Conventions of the shallow embedding:
* timestamps are natural numbers counting seconds; a calendar date is the
  timestamp divided by 86400 (the Python code derives the date from the
  candle timestamp with `.date()`);
* prices and volumes are rationals;
* a Python dict keyed by symbol is an association list (insertion order
  is dict iteration order);
* a Python exception raised by a collaborator is an explicit `Except`
  value, and a `try`/`except` block is an explicit match on it.
-/

namespace Spec2Proof

/-! ## Candle builder (src/data/candle_builder.py) -/

structure Tick where
  symbol : String
  price : ℚ
  volume : ℚ
  timestamp : ℕ
  deriving DecidableEq

/-- Candle dict built by `CandleBuilder.process_tick`; `open_price` is the
Python key `open` (a Lean keyword). -/
structure Candle where
  symbol : String
  start_time : ℕ
  end_time : ℕ
  open_price : ℚ
  high : ℚ
  low : ℚ
  close : ℚ
  volume : ℚ
  deriving DecidableEq

/-- Python `timestamp.replace(second=0, microsecond=0)`: zero out the
seconds within the minute. -/
def truncToMinute (ts : ℕ) : ℕ := ts - ts % 60

/-- State of `CandleBuilder`: the configured timeframe (seconds) and the
`_current_candles` dict, one open candle per symbol. -/
structure BuilderState where
  timeframe : ℕ
  current : String → Option Candle

/-- Return value of `process_tick`: the `update` candle and the optional
`closed` candle. -/
structure ProcessResult where
  update : Candle
  closed : Option Candle
  deriving DecidableEq

/-- Fresh candle seeded from a tick, as built in Case 1 and Case 3 of
`process_tick` (`candle_start = timestamp.replace(second=0, microsecond=0)`,
`candle_end = candle_start + self._timeframe`). -/
def newCandleFromTick (tf : ℕ) (t : Tick) : Candle :=
  { symbol := t.symbol
    start_time := truncToMinute t.timestamp
    end_time := truncToMinute t.timestamp + tf
    open_price := t.price
    high := t.price
    low := t.price
    close := t.price
    volume := t.volume }

/-- `CandleBuilder.process_tick`, returning the result dict and the updated
builder state. -/
def process_tick (st : BuilderState) (t : Tick) : ProcessResult × BuilderState :=
  match st.current t.symbol with
  | none =>
      let c := newCandleFromTick st.timeframe t
      (⟨c, none⟩,
       ⟨st.timeframe, fun s => if s = t.symbol then some c else st.current s⟩)
  | some cur =>
      if t.timestamp < cur.end_time then
        let c : Candle :=
          { cur with
              high := max cur.high t.price
              low := min cur.low t.price
              close := t.price
              volume := cur.volume + t.volume }
        (⟨c, none⟩,
         ⟨st.timeframe, fun s => if s = t.symbol then some c else st.current s⟩)
      else
        let c := newCandleFromTick st.timeframe t
        (⟨c, some cur⟩,
         ⟨st.timeframe, fun s => if s = t.symbol then some c else st.current s⟩)

/-- Feed a list of ticks through `process_tick`, collecting the closed
candles in emission order. -/
def processTicks (st : BuilderState) : List Tick → List Candle × BuilderState
  | [] => ([], st)
  | t :: ts =>
      let (res, st') := process_tick st t
      let (closed, st'') := processTicks st' ts
      (match res.closed with
       | none => closed
       | some c => c :: closed, st'')

/-- Empty builder state with the given timeframe (seconds). -/
def emptyBuilder (tf : ℕ) : BuilderState := ⟨tf, fun _ => none⟩

end Spec2Proof

namespace Spec2Proof

/-- C2: ticks at (09:15:10, 100.0), (09:15:40, 102.0), (09:16:01, 101.0)
(33310 s, 33340 s, 33361 s since midnight) on a 1-minute window yield
exactly one closed candle with open 100, high 102, low 100, close 102,
volume the sum of the first two tick volumes, and window
[09:15, 09:16) = [33300, 33360); a tick strictly before the open candle's
end time updates that candle (high = max, low = min, close = price,
volume accumulated) and returns no closed candle; the first tick at or
past the end time returns the untouched candle as closed together with a
new candle seeded from that tick. -/
theorem C2_candle_closure :
    ((processTicks (emptyBuilder 60)
        [⟨"TEST", 100, 10, 33310⟩, ⟨"TEST", 102, 5, 33340⟩,
         ⟨"TEST", 101, 7, 33361⟩]).1 =
      [⟨"TEST", 33300, 33360, 100, 102, 100, 102, 10 + 5⟩]) ∧
    (∀ (st : BuilderState) (t : Tick) (cur : Candle),
      st.current t.symbol = some cur → t.timestamp < cur.end_time →
        (process_tick st t).1.closed = none ∧
        (process_tick st t).1.update =
          { cur with
              high := max cur.high t.price
              low := min cur.low t.price
              close := t.price
              volume := cur.volume + t.volume } ∧
        (process_tick st t).2.current t.symbol =
          some (process_tick st t).1.update) ∧
    (∀ (st : BuilderState) (t : Tick) (cur : Candle),
      st.current t.symbol = some cur → cur.end_time ≤ t.timestamp →
        (process_tick st t).1.closed = some cur ∧
        (process_tick st t).1.update = newCandleFromTick st.timeframe t ∧
        (process_tick st t).2.current t.symbol =
          some (newCandleFromTick st.timeframe t)) := by
  refine ⟨?_, ?_, ?_⟩
  · simp [processTicks, process_tick, emptyBuilder, newCandleFromTick,
      truncToMinute]
    norm_num
  · intro st t cur hcur hlt
    simp [process_tick, hcur, hlt]
  · intro st t cur hcur hle
    simp [process_tick, hcur, Nat.not_lt.mpr hle]

/-- Witness for C2 at concrete inputs. -/
theorem C2_candle_closure_witness :
    ((processTicks (emptyBuilder 60)
        [⟨"TEST", 100, 10, 33310⟩, ⟨"TEST", 102, 5, 33340⟩,
         ⟨"TEST", 101, 7, 33361⟩]).1 =
      [⟨"TEST", 33300, 33360, 100, 102, 100, 102, 10 + 5⟩]) ∧
    (process_tick
        ⟨60, fun s => if s = "TEST"
          then some ⟨"TEST", 33300, 33360, 100, 100, 100, 100, 10⟩
          else none⟩
        ⟨"TEST", 102, 5, 33340⟩).1.closed = none ∧
    (process_tick
        ⟨60, fun s => if s = "TEST"
          then some ⟨"TEST", 33300, 33360, 100, 102, 100, 102, 15⟩
          else none⟩
        ⟨"TEST", 101, 7, 33361⟩).1.closed =
      some ⟨"TEST", 33300, 33360, 100, 102, 100, 102, 15⟩ :=
  ⟨C2_candle_closure.1,
   (C2_candle_closure.2.1 _ ⟨"TEST", 102, 5, 33340⟩
      ⟨"TEST", 33300, 33360, 100, 100, 100, 100, 10⟩ (by simp) (by norm_num)).1,
   (C2_candle_closure.2.2 _ ⟨"TEST", 101, 7, 33361⟩
      ⟨"TEST", 33300, 33360, 100, 102, 100, 102, 15⟩ (by simp) (by norm_num)).1⟩

/-- C3 counterexample: with a 5-minute timeframe (300 s), a tick at
09:17:30 (33450 s) opens the window [09:17, 09:22) = [33420, 33720):
the window start is the timestamp floored to the minute, not to the
configured interval, so it is not the interval-aligned
[09:15, 09:20) = [33300, 33600) the claim requires. -/
theorem C3_counterexample :
    (process_tick (emptyBuilder 300) ⟨"TEST", 100, 1, 33450⟩).1.update.start_time
        = 33420 ∧
    (process_tick (emptyBuilder 300) ⟨"TEST", 100, 1, 33450⟩).1.update.end_time
        = 33720 ∧
    (33420 : ℕ) ≠ 33300 := by
  refine ⟨?_, ?_, by norm_num⟩ <;>
    simp [process_tick, emptyBuilder, newCandleFromTick, truncToMinute]

/-- C3 as amended: whenever `process_tick` opens a new candle (no open
candle for the symbol, or a candle is being closed), the new candle's
window start is the tick timestamp with the seconds within the minute
zeroed out — a floor to the minute regardless of the configured
interval — and the window end is that start plus the configured
timeframe. -/
theorem C3_window_floor_minute (st : BuilderState) (t : Tick)
    (h : st.current t.symbol = none ∨ (process_tick st t).1.closed ≠ none) :
    (process_tick st t).1.update.start_time = t.timestamp - t.timestamp % 60 ∧
    (process_tick st t).1.update.end_time
        = (t.timestamp - t.timestamp % 60) + st.timeframe := by
  match hcur : st.current t.symbol with
  | none => simp [process_tick, hcur, newCandleFromTick, truncToMinute]
  | some cur =>
      by_cases hlt : t.timestamp < cur.end_time
      · rcases h with h | h
        · rw [hcur] at h; exact absurd h (by simp)
        · rw [show (process_tick st t).1.closed = none from by
            simp [process_tick, hcur, hlt]] at h
          exact absurd rfl h
      · simp [process_tick, hcur, hlt, newCandleFromTick, truncToMinute]

/-- Witness for the amended C3 at a concrete input. -/
theorem C3_window_floor_minute_witness :
    (process_tick (emptyBuilder 300) ⟨"TEST", 100, 1, 33450⟩).1.update.start_time
        = 33450 - 33450 % 60 ∧
    (process_tick (emptyBuilder 300) ⟨"TEST", 100, 1, 33450⟩).1.update.end_time
        = (33450 - 33450 % 60) + 300 :=
  C3_window_floor_minute (emptyBuilder 300) ⟨"TEST", 100, 1, 33450⟩
    (Or.inl rfl)

end Spec2Proof

namespace Spec2Proof

/-! ## Session boundary detector (src/core/session/session_boundary_detector.py) -/

/-- Calendar date of a timestamp, as the Python code's `candle_ts.date()`:
days since the epoch of the seconds counter. -/
def dateOf (ts : ℕ) : ℕ := ts / 86400

/-- SessionContext (src/core/session/session_context.py). -/
structure SessionContext where
  session_date : ℕ
  session_start_timestamp : ℕ
  session_end_timestamp : Option ℕ
  today_open : ℚ
  prev_day_open : ℚ
  prev_day_high : ℚ
  prev_day_low : ℚ
  prev_day_close : ℚ
  deriving DecidableEq

/-- CandleClosedEvent as consumed by the detector: its timestamp and OHLC
fields (`event.timestamp`, `event.open` ... `event.close`). -/
structure ClosedCandle where
  timestamp : ℕ
  open_price : ℚ
  high : ℚ
  low : ℚ
  close : ℚ
  deriving DecidableEq

/-- Session transition signals published by the detector. -/
inductive SessionSignal where
  | started (timestamp : ℕ) (ctx : SessionContext)
  | ended (timestamp : ℕ) (ctx : SessionContext)
  deriving DecidableEq

/-- Detector state.  In the Python class the fields
`_active_session_date`, `_active_session_context`, `_prev_day_*` and
`_last_candle_timestamp` are all `None` before the first candle and all
set afterwards (the bootstrap branch sets every one of them), so the
state is either the initial one or a fully populated active session. -/
inductive DetectorState where
  | start
  | active (session_date : ℕ) (ctx : SessionContext)
      (prev_open prev_high prev_low prev_close : ℚ) (last_ts : ℕ)
  deriving DecidableEq

/-- `SessionBoundaryDetector.on_candle_closed`: returns the new state and
the signals published, in publication order. -/
def on_candle_closed (st : DetectorState) (c : ClosedCandle) :
    DetectorState × List SessionSignal :=
  match st with
  | .start =>
      let ctx : SessionContext :=
        { session_date := dateOf c.timestamp
          session_start_timestamp := c.timestamp
          session_end_timestamp := none
          today_open := c.open_price
          prev_day_open := c.open_price
          prev_day_high := c.high
          prev_day_low := c.low
          prev_day_close := c.close }
      (.active (dateOf c.timestamp) ctx c.open_price c.high c.low c.close
        c.timestamp,
       [.started c.timestamp ctx])
  | .active d ctx po ph pl pc last =>
      if dateOf c.timestamp = d then
        (.active d ctx po (max ph c.high) (min pl c.low) c.close c.timestamp,
         [])
      else
        let endedCtx := { ctx with session_end_timestamp := some last }
        let newCtx : SessionContext :=
          { session_date := dateOf c.timestamp
            session_start_timestamp := c.timestamp
            session_end_timestamp := none
            today_open := c.open_price
            prev_day_open := po
            prev_day_high := ph
            prev_day_low := pl
            prev_day_close := pc }
        (.active (dateOf c.timestamp) newCtx c.open_price c.high c.low c.close
          c.timestamp,
         [.ended last endedCtx, .started c.timestamp newCtx])

/-- Feed a list of closed candles through the detector, collecting all
published signals in order. -/
def runDetector (st : DetectorState) : List ClosedCandle →
    DetectorState × List SessionSignal
  | [] => (st, [])
  | c :: cs =>
      let p := on_candle_closed st c
      let q := runDetector p.1 cs
      (q.1, p.2 ++ q.2)

/-- Signal classifiers used to count emissions. -/
def SessionSignal.isStarted : SessionSignal → Bool
  | .started _ _ => true
  | .ended _ _ => false

def SessionSignal.isEnded : SessionSignal → Bool
  | .started _ _ => false
  | .ended _ _ => true

end Spec2Proof

namespace Spec2Proof

/-! ### Helper lemmas about the rolling accumulator folds -/

theorem le_foldl_max {α : Type} (f : α → ℚ) :
    ∀ (l : List α) (a : ℚ), a ≤ l.foldl (fun x y => max x (f y)) a
  | [], a => le_refl a
  | c :: l, a =>
      le_trans (le_max_left a (f c)) (le_foldl_max f l (max a (f c)))

theorem mem_le_foldl_max {α : Type} (f : α → ℚ) :
    ∀ (l : List α) (a : ℚ), ∀ c ∈ l, f c ≤ l.foldl (fun x y => max x (f y)) a
  | c :: l, a, x, hx => by
      rw [List.foldl_cons]
      rcases List.mem_cons.mp hx with h | h
      · subst h; exact le_trans (le_max_right a (f x)) (le_foldl_max f l _)
      · exact mem_le_foldl_max f l (max a (f c)) x h

theorem foldl_max_eq_init_or_mem {α : Type} (f : α → ℚ) :
    ∀ (l : List α) (a : ℚ),
      l.foldl (fun x y => max x (f y)) a = a ∨
      ∃ c ∈ l, l.foldl (fun x y => max x (f y)) a = f c
  | [], a => Or.inl rfl
  | c :: l, a => by
      rcases foldl_max_eq_init_or_mem f l (max a (f c)) with h | ⟨x, hx, h⟩
      · rcases max_choice a (f c) with hm | hm
        · exact Or.inl (by simpa [hm] using h)
        · exact Or.inr ⟨c, by simp, by simpa [hm] using h⟩
      · exact Or.inr ⟨x, by simp [hx], by simpa using h⟩

theorem foldl_min_le_init {α : Type} (f : α → ℚ) :
    ∀ (l : List α) (a : ℚ), l.foldl (fun x y => min x (f y)) a ≤ a
  | [], a => le_refl a
  | c :: l, a => by
      rw [List.foldl_cons]
      exact le_trans (foldl_min_le_init f l (min a (f c))) (min_le_left a (f c))

theorem foldl_min_le_mem {α : Type} (f : α → ℚ) :
    ∀ (l : List α) (a : ℚ), ∀ c ∈ l, l.foldl (fun x y => min x (f y)) a ≤ f c
  | c :: l, a, x, hx => by
      rw [List.foldl_cons]
      rcases List.mem_cons.mp hx with h | h
      · subst h; exact le_trans (foldl_min_le_init f l _) (min_le_right a (f x))
      · exact foldl_min_le_mem f l (min a (f c)) x h

theorem foldl_min_eq_init_or_mem {α : Type} (f : α → ℚ) :
    ∀ (l : List α) (a : ℚ),
      l.foldl (fun x y => min x (f y)) a = a ∨
      ∃ c ∈ l, l.foldl (fun x y => min x (f y)) a = f c
  | [], a => Or.inl rfl
  | c :: l, a => by
      rcases foldl_min_eq_init_or_mem f l (min a (f c)) with h | ⟨x, hx, h⟩
      · rcases min_choice a (f c) with hm | hm
        · exact Or.inl (by simpa [hm] using h)
        · exact Or.inr ⟨c, by simp, by simpa [hm] using h⟩
      · exact Or.inr ⟨x, by simp [hx], by simpa using h⟩

theorem foldl_const_getLast {α β : Type} (g : α → β) :
    ∀ (l : List α) (c0 : α),
      l.foldl (fun _ c => g c) (g c0) =
        g ((c0 :: l).getLast (List.cons_ne_nil c0 l))
  | [], c0 => rfl
  | c :: l, c0 => by
      rw [List.foldl_cons, foldl_const_getLast g l c,
        List.getLast_cons (List.cons_ne_nil c l)]

/-! ### Behaviour of the detector on a run of same-date candles -/

/-- Feeding candles that all carry the active session date performs only
rolling-accumulator updates and publishes nothing. -/
theorem runDetector_same_date (d : ℕ) (ctx : SessionContext) (po : ℚ) :
    ∀ (cs : List ClosedCandle) (ph pl pc : ℚ) (last : ℕ),
      (∀ c ∈ cs, dateOf c.timestamp = d) →
      runDetector (.active d ctx po ph pl pc last) cs =
        (.active d ctx po
          (cs.foldl (fun a c => max a c.high) ph)
          (cs.foldl (fun a c => min a c.low) pl)
          (cs.foldl (fun _ c => c.close) pc)
          (cs.foldl (fun _ c => c.timestamp) last), [])
  | [], ph, pl, pc, last, _ => by simp [runDetector]
  | c :: cs, ph, pl, pc, last, hall => by
      have hc : dateOf c.timestamp = d := hall c (by simp)
      have ih := runDetector_same_date d ctx po cs
        (max ph c.high) (min pl c.low) c.close c.timestamp
        (fun x hx => hall x (by simp [hx]))
      simp [runDetector, on_candle_closed, hc, ih]

end Spec2Proof

namespace Spec2Proof

/-- Running the detector over a concatenation splits into two runs. -/
theorem runDetector_append (xs ys : List ClosedCandle) :
    ∀ (st : DetectorState),
      runDetector st (xs ++ ys) =
        ((runDetector (runDetector st xs).1 ys).1,
         (runDetector st xs).2 ++ (runDetector (runDetector st xs).1 ys).2) := by
  induction xs with
  | nil => intro st; simp [runDetector]
  | cons c cs ih =>
      intro st
      simp only [List.cons_append, runDetector, List.append_eq, ih,
        List.append_assoc]

end Spec2Proof

namespace Spec2Proof

/-- C1: a two-day closed-candle stream (every day-1 candle dated `d1`,
every day-2 candle dated `d2 ≠ d1`, fed in timestamp order) makes the
detector publish exactly [session started, session ended, session
started]: two starts and one end.  The ended signal and its frozen
context carry `session_end_timestamp` = the last day-1 candle's
timestamp (written into the context the signal carries), and the second
session's context has `prev_day_open` = the first day-1 candle's open,
`prev_day_high` / `prev_day_low` = the max high / min low over all day-1
candles, `prev_day_close` = the last day-1 candle's close — the
finalized rolling accumulator — and `today_open` = the first day-2
candle's open. -/
theorem C1_session_transitions (cs1 cs2 : List ClosedCandle) (d1 d2 : ℕ)
    (hne1 : cs1 ≠ []) (hne2 : cs2 ≠ [])
    (hd1 : ∀ c ∈ cs1, dateOf c.timestamp = d1)
    (hd2 : ∀ c ∈ cs2, dateOf c.timestamp = d2)
    (hdd : d1 ≠ d2)
    (hord : (cs1 ++ cs2).Chain' (fun a b => a.timestamp ≤ b.timestamp)) :
    ∃ ctx1 ctxE ctx2,
      (runDetector .start (cs1 ++ cs2)).2 =
        [.started (cs1.head hne1).timestamp ctx1,
         .ended (cs1.getLast hne1).timestamp ctxE,
         .started (cs2.head hne2).timestamp ctx2] ∧
      (runDetector .start (cs1 ++ cs2)).2.countP (·.isStarted) = 2 ∧
      (runDetector .start (cs1 ++ cs2)).2.countP (·.isEnded) = 1 ∧
      ctxE.session_end_timestamp = some (cs1.getLast hne1).timestamp ∧
      ctx2.prev_day_open = (cs1.head hne1).open_price ∧
      (∀ c ∈ cs1, c.high ≤ ctx2.prev_day_high) ∧
      (∃ c ∈ cs1, ctx2.prev_day_high = c.high) ∧
      (∀ c ∈ cs1, ctx2.prev_day_low ≤ c.low) ∧
      (∃ c ∈ cs1, ctx2.prev_day_low = c.low) ∧
      ctx2.prev_day_close = (cs1.getLast hne1).close ∧
      ctx2.today_open = (cs2.head hne2).open_price := by
  obtain ⟨c1, t1, rfl⟩ := List.exists_cons_of_ne_nil hne1
  obtain ⟨c2, t2, rfl⟩ := List.exists_cons_of_ne_nil hne2
  have hd1c : dateOf c1.timestamp = d1 := hd1 c1 (by simp)
  have hd2c : dateOf c2.timestamp = d2 := hd2 c2 (by simp)
  have hd1t : ∀ c ∈ t1, dateOf c.timestamp = d1 :=
    fun c hc => hd1 c (by simp [hc])
  have hd2t : ∀ c ∈ t2, dateOf c.timestamp = d2 :=
    fun c hc => hd2 c (by simp [hc])
  -- the bootstrap context
  set ctx1 : SessionContext :=
    { session_date := d1
      session_start_timestamp := c1.timestamp
      session_end_timestamp := none
      today_open := c1.open_price
      prev_day_open := c1.open_price
      prev_day_high := c1.high
      prev_day_low := c1.low
      prev_day_close := c1.close } with hctx1
  have h0 : on_candle_closed .start c1 =
      (.active d1 ctx1 c1.open_price c1.high c1.low c1.close c1.timestamp,
       [.started c1.timestamp ctx1]) := by
    simp [on_candle_closed, hd1c, hctx1]
  -- rolling accumulation over the rest of day 1
  set H1 : ℚ := t1.foldl (fun a c => max a c.high) c1.high with hH1
  set L1 : ℚ := t1.foldl (fun a c => min a c.low) c1.low with hL1
  set P1 : ℚ := t1.foldl (fun _ c => c.close) c1.close with hP1
  set T1 : ℕ := t1.foldl (fun _ c => c.timestamp) c1.timestamp with hT1
  have h1 : runDetector
      (.active d1 ctx1 c1.open_price c1.high c1.low c1.close c1.timestamp) t1 =
      (.active d1 ctx1 c1.open_price H1 L1 P1 T1, []) :=
    runDetector_same_date d1 ctx1 c1.open_price t1
      c1.high c1.low c1.close c1.timestamp hd1t
  -- the date change on the first day-2 candle
  set ctxE : SessionContext := { ctx1 with session_end_timestamp := some T1 }
    with hctxE
  set ctx2 : SessionContext :=
    { session_date := d2
      session_start_timestamp := c2.timestamp
      session_end_timestamp := none
      today_open := c2.open_price
      prev_day_open := c1.open_price
      prev_day_high := H1
      prev_day_low := L1
      prev_day_close := P1 } with hctx2
  have h2 : on_candle_closed (.active d1 ctx1 c1.open_price H1 L1 P1 T1) c2 =
      (.active d2 ctx2 c2.open_price c2.high c2.low c2.close c2.timestamp,
       [.ended T1 ctxE, .started c2.timestamp ctx2]) := by
    simp [on_candle_closed, hd2c, Ne.symm hdd, hctxE, hctx2]
  have h3 : runDetector
      (.active d2 ctx2 c2.open_price c2.high c2.low c2.close c2.timestamp) t2 =
      (.active d2 ctx2 c2.open_price
        (t2.foldl (fun a c => max a c.high) c2.high)
        (t2.foldl (fun a c => min a c.low) c2.low)
        (t2.foldl (fun _ c => c.close) c2.close)
        (t2.foldl (fun _ c => c.timestamp) c2.timestamp), []) :=
    runDetector_same_date d2 ctx2 c2.open_price t2
      c2.high c2.low c2.close c2.timestamp hd2t
  have hT1last : T1 = ((c1 :: t1).getLast (List.cons_ne_nil c1 t1)).timestamp := by
    rw [hT1, foldl_const_getLast (fun c => c.timestamp) t1 c1]
  have hP1last : P1 = ((c1 :: t1).getLast (List.cons_ne_nil c1 t1)).close := by
    rw [hP1, foldl_const_getLast (fun c => c.close) t1 c1]
  have hrun : (runDetector .start ((c1 :: t1) ++ c2 :: t2)).2 =
      [.started c1.timestamp ctx1, .ended T1 ctxE, .started c2.timestamp ctx2] := by
    have e1 : runDetector .start (c1 :: (t1 ++ c2 :: t2)) =
        ((runDetector
            (.active d1 ctx1 c1.open_price c1.high c1.low c1.close c1.timestamp)
            (t1 ++ c2 :: t2)).1,
         [.started c1.timestamp ctx1] ++
           (runDetector
             (.active d1 ctx1 c1.open_price c1.high c1.low c1.close c1.timestamp)
             (t1 ++ c2 :: t2)).2) := by
      conv_lhs => rw [runDetector]
      rw [h0]
    rw [List.cons_append, e1,
      runDetector_append t1 (c2 :: t2) _, h1]
    simp only [runDetector, h2, h3]
    simp
  refine ⟨ctx1, ctxE, ctx2, ?_, ?_, ?_, ?_, ?_, ?_, ?_, ?_, ?_, ?_, ?_⟩
  · rw [show (runDetector .start ((c1 :: t1) ++ c2 :: t2)).2 =
        [.started c1.timestamp ctx1,
         .ended ((c1 :: t1).getLast (List.cons_ne_nil c1 t1)).timestamp ctxE,
         .started c2.timestamp ctx2] from hT1last ▸ hrun]
    rfl
  · rw [hrun]; rfl
  · rw [hrun]; rfl
  · rw [hctxE]; exact congrArg some hT1last
  · simp [hctx2]
  · intro c hc
    rcases List.mem_cons.mp hc with h | h
    · subst h; simpa [hctx2, hH1] using le_foldl_max (fun c => c.high) t1 c.high
    · simpa [hctx2, hH1] using mem_le_foldl_max (fun c => c.high) t1 c1.high c h
  · rcases foldl_max_eq_init_or_mem (fun c => c.high) t1 c1.high with h | ⟨c, hc, h⟩
    · exact ⟨c1, by simp, by simp [hctx2, hH1, h]⟩
    · exact ⟨c, by simp [hc], by simp [hctx2, hH1, h]⟩
  · intro c hc
    rcases List.mem_cons.mp hc with h | h
    · subst h; simpa [hctx2, hL1] using foldl_min_le_init (fun c => c.low) t1 c.low
    · simpa [hctx2, hL1] using foldl_min_le_mem (fun c => c.low) t1 c1.low c h
  · rcases foldl_min_eq_init_or_mem (fun c => c.low) t1 c1.low with h | ⟨c, hc, h⟩
    · exact ⟨c1, by simp, by simp [hctx2, hL1, h]⟩
    · exact ⟨c, by simp [hc], by simp [hctx2, hL1, h]⟩
  · rw [hctx2]; exact hP1last
  · simp [hctx2]

end Spec2Proof

namespace Spec2Proof

/-- Witness for C1: two day-0 candles (timestamps 100 and 200) followed by
one day-1 candle (timestamp 86500). -/
theorem C1_session_transitions_witness :
    ∃ ctx1 ctxE ctx2,
      (runDetector .start
          ([⟨100, 10, 12, 9, 11⟩, ⟨200, 11, 15, 8, 10⟩] ++
            [(⟨86500, 20, 21, 19, 20⟩ : ClosedCandle)])).2 =
        [.started 100 ctx1, .ended 200 ctxE, .started 86500 ctx2] ∧
      (runDetector .start
          ([⟨100, 10, 12, 9, 11⟩, ⟨200, 11, 15, 8, 10⟩] ++
            [(⟨86500, 20, 21, 19, 20⟩ : ClosedCandle)])).2.countP
          (·.isStarted) = 2 ∧
      (runDetector .start
          ([⟨100, 10, 12, 9, 11⟩, ⟨200, 11, 15, 8, 10⟩] ++
            [(⟨86500, 20, 21, 19, 20⟩ : ClosedCandle)])).2.countP
          (·.isEnded) = 1 ∧
      ctxE.session_end_timestamp = some 200 ∧
      ctx2.prev_day_open = 10 ∧
      (∀ c ∈ [(⟨100, 10, 12, 9, 11⟩ : ClosedCandle), ⟨200, 11, 15, 8, 10⟩],
        c.high ≤ ctx2.prev_day_high) ∧
      (∃ c ∈ [(⟨100, 10, 12, 9, 11⟩ : ClosedCandle), ⟨200, 11, 15, 8, 10⟩],
        ctx2.prev_day_high = c.high) ∧
      (∀ c ∈ [(⟨100, 10, 12, 9, 11⟩ : ClosedCandle), ⟨200, 11, 15, 8, 10⟩],
        ctx2.prev_day_low ≤ c.low) ∧
      (∃ c ∈ [(⟨100, 10, 12, 9, 11⟩ : ClosedCandle), ⟨200, 11, 15, 8, 10⟩],
        ctx2.prev_day_low = c.low) ∧
      ctx2.prev_day_close = 10 ∧
      ctx2.today_open = 20 :=
  C1_session_transitions
    [⟨100, 10, 12, 9, 11⟩, ⟨200, 11, 15, 8, 10⟩]
    [⟨86500, 20, 21, 19, 20⟩] 0 1
    (by simp) (by simp)
    (by intro c hc; fin_cases hc <;> rfl)
    (by intro c hc; fin_cases hc; rfl)
    (by norm_num)
    (by simp)

end Spec2Proof

namespace Spec2Proof

/-! ## Derived data (src/core/derived_data/) -/

/-- One row of the previous-day OHLC table (`{"high":…, "low":…, "close":…}`). -/
structure OHLC where
  high : ℚ
  low : ℚ
  close : ℚ
  deriving DecidableEq

/-- Configuration from src/core/derived_data/config.py: the universe
lists (`symbol_universe`, `manually_omitted_symbols`) and `DERIVED_CFG`.
The `symbol_metadata` dict is free-form operator metadata not involved in
any computation verified here and is omitted. -/
structure DerivedConfig where
  symbol_universe : List String
  manually_omitted_symbols : List String
  threshold_pct : ℚ
  top_n : ℕ
  target_step_pct : ℚ
  target_max_pct : ℚ
  flip_steps_pct : List ℚ

/-- DerivedSymbolData (src/core/derived_data/models.py), minus the
free-form `metadata` dict. -/
structure DerivedSymbolData where
  symbol : String
  prev_high : ℚ
  prev_low : ℚ
  prev_close : ℚ
  P : ℚ
  BC : ℚ
  TC : ℚ
  cpr_width_pct : ℚ
  target_range_pos : List ℚ
  target_range_neg : List ℚ
  flip_range_pos : List ℚ
  flip_range_neg : List ℚ
  deriving DecidableEq

structure DerivedUniverseSnapshot where
  timestamp : ℕ
  effective_universe : List String
  filtered_symbols : List String
  tradable_symbols : List String
  symbols_missing_prev_day_ohlc : List String
  deriving DecidableEq

structure GapEntry where
  prev_close : ℚ
  today_open : ℚ
  gap_pct : ℚ
  gap_pct_abs : ℚ
  deriving DecidableEq

structure GapSnapshotEvent where
  timestamp : ℕ
  gaps : List (String × GapEntry)
  deriving DecidableEq

/-- `DerivedDataProcessor.universe_refresh`: the configured universe list
minus the omitted set, preserving the configured order. -/
def universe_refresh (cfg : DerivedConfig) : List String :=
  cfg.symbol_universe.filter (fun s => decide (s ∉ cfg.manually_omitted_symbols))

/-- `DerivedDataProcessor._compute_cpr`. -/
def compute_cpr (h l c : ℚ) : ℚ × ℚ × ℚ × ℚ :=
  let P := (h + l + c) / 3
  let BC := (h + l) / 2
  let TC := 2 * P - BC
  (P, BC, TC, |TC - BC| / P * 100)

/-- Number of target steps:
`int(round(target_max_pct / target_step_pct)) + 1`.  (Python `round`
rounds half to even; the two agree off half-integral ratios, and the
shipped configuration gives the integral ratio 20.0 / 0.25 = 80.) -/
def numTargetSteps (cfg : DerivedConfig) : ℕ :=
  (round (cfg.target_max_pct / cfg.target_step_pct)).toNat + 1

/-- `DerivedDataProcessor._compute_target_ranges`: percentages
`k_i = i * step` for `i = 0 .. num_steps - 1`, absolute prices
`x * (1 + k)` and `x * (1 - k)`. -/
def compute_target_ranges (cfg : DerivedConfig) (x : ℚ) : List ℚ × List ℚ :=
  let step := cfg.target_step_pct / 100
  let ks := (List.range (numTargetSteps cfg)).map (fun (i : ℕ) => (i : ℚ) * step)
  (ks.map (fun k => x * (1 + k)), ks.map (fun k => x * (1 - k)))

/-- `DerivedDataProcessor._compute_flip_ranges`. -/
def compute_flip_ranges (cfg : DerivedConfig) (x : ℚ) : List ℚ × List ℚ :=
  let ks := cfg.flip_steps_pct.map (fun k => k / 100)
  (ks.map (fun k => x * (1 + k)), ks.map (fun k => x * (1 - k)))

/-- The per-symbol record built inside the `run_pre_market` loop. -/
def computeRecord (cfg : DerivedConfig) (symbol : String) (ohlc : OHLC) :
    DerivedSymbolData :=
  let q := compute_cpr ohlc.high ohlc.low ohlc.close
  { symbol := symbol
    prev_high := ohlc.high
    prev_low := ohlc.low
    prev_close := ohlc.close
    P := q.1
    BC := q.2.1
    TC := q.2.2.1
    cpr_width_pct := q.2.2.2
    target_range_pos := (compute_target_ranges cfg ohlc.close).1
    target_range_neg := (compute_target_ranges cfg ohlc.close).2
    flip_range_pos := (compute_flip_ranges cfg ohlc.close).1
    flip_range_neg := (compute_flip_ranges cfg ohlc.close).2 }

/-- Records computed for the symbols of the effective universe that have
a row in the previous-day OHLC table, in universe order (the order of
`self._filtered_records` before the sort). -/
def computedRecords (cfg : DerivedConfig) (table : List (String × OHLC)) :
    List DerivedSymbolData :=
  (universe_refresh cfg).filterMap
    (fun s => (table.lookup s).map (fun o => computeRecord cfg s o))

/-- The Boolean comparator used by the pre-market sort. -/
def cprLe (a b : DerivedSymbolData) : Bool :=
  decide (a.cpr_width_pct ≤ b.cpr_width_pct)

/-- `store.persist_symbol_data` as seen by the processor: the call either
returns or raises, chosen by the `fail` oracle. -/
def persist_symbol_data (fail : String → Bool) (r : DerivedSymbolData) :
    Except String Unit :=
  if fail r.symbol then .error "persist error" else .ok ()

/-- Everything `run_pre_market` computes: the in-memory lists, the
persistence outcomes, and the published snapshot.  `now` is the value
`datetime.now(timezone.utc)` read while building the snapshot; Python
keeps `_symbols_missing_prev_day_ohlc` in a set, embedded here as the
deduplicated list of universe order. -/
structure PreMarketResult where
  effective_universe : List String
  symbols_missing_prev_day_ohlc : List String
  filtered_records : List DerivedSymbolData
  tradable_records : List DerivedSymbolData
  persisted_records : List DerivedSymbolData
  persist_failures : List String
  snapshot : DerivedUniverseSnapshot

/-- Body of `DerivedDataProcessor.run_pre_market` through snapshot
construction (derived_data_processor.py lines 115-186).  Each record is
persisted inside a `try`/`except` that logs and continues, so a
per-symbol persistence failure leaves the in-memory lists untouched;
the records are then stable-sorted ascending by `cpr_width_pct`, the
threshold and `top_n` slice give the tradables, and the snapshot is
built with a fresh wall-clock timestamp.  The function's tail — the
unguarded `persist_universe_snapshot` call and the publish — is
`run_pre_market_call` below. -/
def run_pre_market (cfg : DerivedConfig) (table : List (String × OHLC))
    (now : ℕ) (fail : String → Bool) : PreMarketResult :=
  let univ := universe_refresh cfg
  let missing :=
    (univ.filter (fun s => (table.lookup s).isNone)).dedup
  let records := computedRecords cfg table
  let persisted := records.filter
    (fun r => match persist_symbol_data fail r with
      | .ok _ => true
      | .error _ => false)
  let failures := (records.filter
    (fun r => match persist_symbol_data fail r with
      | .ok _ => false
      | .error _ => true)).map (fun r => r.symbol)
  let sorted := records.mergeSort cprLe
  let candidates := sorted.filter
    (fun r => decide (r.cpr_width_pct < cfg.threshold_pct))
  let tradable := candidates.take cfg.top_n
  { effective_universe := univ
    symbols_missing_prev_day_ohlc := missing
    filtered_records := sorted
    tradable_records := tradable
    persisted_records := persisted
    persist_failures := failures
    snapshot :=
      { timestamp := now
        effective_universe := univ
        filtered_symbols := sorted.map (fun r => r.symbol)
        tradable_symbols := tradable.map (fun r => r.symbol)
        symbols_missing_prev_day_ohlc := missing } }

/-- The complete `run_pre_market` call including its tail
(derived_data_processor.py lines 188-190):
`self._store.persist_universe_snapshot(snapshot)` is NOT wrapped in any
`try`/`except`, so when that store call raises, the exception
propagates out of `run_pre_market` and the `publish` on line 190 never
runs; otherwise the snapshot is published.  `snapshot_persist_raises`
says whether that single store call raises.  The first component is the
processor's in-memory state, already fully updated either way; the
second is the outcome seen by the caller: the published snapshot, or
the propagated exception. -/
def run_pre_market_call (cfg : DerivedConfig) (table : List (String × OHLC))
    (now : ℕ) (fail : String → Bool) (snapshot_persist_raises : Bool) :
    PreMarketResult × Except String DerivedUniverseSnapshot :=
  let r := run_pre_market cfg table now fail
  (r,
   if snapshot_persist_raises then .error "persist_universe_snapshot raised"
   else .ok r.snapshot)

/-- `DerivedDataProcessor._on_session_start`: gap computation over the
current tradable records, with `today_open` read from the session
context of the SessionStartEvent.  Returns the published GapSnapshotEvent,
or `none` when nothing is published. -/
def on_session_start (tradable_records : List DerivedSymbolData)
    (today_open : ℚ) (event_timestamp : ℕ) : Option GapSnapshotEvent :=
  if tradable_records.isEmpty then none
  else
    let gaps := tradable_records.map (fun r =>
      let gap_pct := (today_open - r.prev_close) / r.prev_close * 100
      (r.symbol, GapEntry.mk r.prev_close today_open gap_pct |gap_pct|))
    if gaps.isEmpty then none
    else some ⟨event_timestamp, gaps⟩

end Spec2Proof

namespace Spec2Proof

/-- Shipped `DERIVED_CFG` values (config.py), with an empty universe to
be overridden per scenario: threshold 0.25 %, top 5, target steps of
0.25 % up to 20 %, flip steps 0 %, 0.02 %, 0.04 %, 0.05 %, 0.06 %,
0.08 %, 0.10 %. -/
def baseCfg : DerivedConfig :=
  { symbol_universe := []
    manually_omitted_symbols := []
    threshold_pct := 1/4
    top_n := 5
    target_step_pct := 1/4
    target_max_pct := 20
    flip_steps_pct := [0, 1/50, 1/25, 1/20, 3/50, 2/25, 1/10] }

/-- C4 counterexample: two invocations of `run_pre_market` with the same
universe configuration and OHLC table read different wall-clock values
while building the snapshot, and the published snapshots then differ (in
the `timestamp` field), so they are not bit-identical. -/
theorem C4_counterexample :
    (run_pre_market { baseCfg with symbol_universe := ["AAA"] }
        [("AAA", ⟨110, 90, 100⟩)] 0 (fun _ => false)).snapshot ≠
      (run_pre_market { baseCfg with symbol_universe := ["AAA"] }
        [("AAA", ⟨110, 90, 100⟩)] 1 (fun _ => false)).snapshot := by
  intro h
  have h' : (0 : ℕ) = 1 := congrArg DerivedUniverseSnapshot.timestamp h
  exact absurd h' (by norm_num)

/-- C4 as amended: two `run_pre_market` invocations with identical
universe configuration and OHLC table agree on every published and
in-memory output — `effective_universe`, `filtered_symbols`,
`tradable_symbols`, `symbols_missing_prev_day_ohlc`, the record lists —
and the two snapshots agree on everything except the `timestamp` field,
which is read from the wall clock at each invocation.  The outputs are
also independent of persistence outcomes. -/
theorem C4_pre_market_idempotent (cfg : DerivedConfig)
    (table : List (String × OHLC)) (now1 now2 : ℕ)
    (fail1 fail2 : String → Bool) :
    (run_pre_market cfg table now1 fail1).snapshot.filtered_symbols =
        (run_pre_market cfg table now2 fail2).snapshot.filtered_symbols ∧
    (run_pre_market cfg table now1 fail1).snapshot.tradable_symbols =
        (run_pre_market cfg table now2 fail2).snapshot.tradable_symbols ∧
    (run_pre_market cfg table now1 fail1).snapshot.symbols_missing_prev_day_ohlc =
        (run_pre_market cfg table now2 fail2).snapshot.symbols_missing_prev_day_ohlc ∧
    (run_pre_market cfg table now1 fail1).snapshot.effective_universe =
        (run_pre_market cfg table now2 fail2).snapshot.effective_universe ∧
    (run_pre_market cfg table now1 fail1).filtered_records =
        (run_pre_market cfg table now2 fail2).filtered_records ∧
    (run_pre_market cfg table now1 fail1).tradable_records =
        (run_pre_market cfg table now2 fail2).tradable_records ∧
    (run_pre_market cfg table now1 fail1).snapshot =
        { (run_pre_market cfg table now2 fail2).snapshot with timestamp := now1 } :=
  ⟨rfl, rfl, rfl, rfl, rfl, rfl, rfl⟩

end Spec2Proof

namespace Spec2Proof

theorem cprLe_trans : ∀ (a b c : DerivedSymbolData),
    cprLe a b → cprLe b c → cprLe a c := by
  intro a b c hab hbc
  simp only [cprLe, decide_eq_true_eq] at *
  exact le_trans hab hbc

theorem cprLe_total : ∀ (a b : DerivedSymbolData), cprLe a b || cprLe b a := by
  intro a b
  simp only [cprLe, Bool.or_eq_true, decide_eq_true_eq]
  exact le_total a.cpr_width_pct b.cpr_width_pct

/-- C5 counterexample: one symbol whose CPR width is 12.5 % — far above
the 0.25 % threshold — still appears in the published
`filtered_symbols`, while the sorted-and-under-threshold list the claim
equates it with is empty: `filtered_symbols` is the full sorted record
list, not the thresholded one. -/
theorem C5_counterexample :
    (run_pre_market { baseCfg with symbol_universe := ["BBB"] }
        [("BBB", ⟨150, 50, 120⟩)] 0 (fun _ => false)).snapshot.filtered_symbols
      = ["BBB"] ∧
    ((run_pre_market { baseCfg with symbol_universe := ["BBB"] }
        [("BBB", ⟨150, 50, 120⟩)] 0 (fun _ => false)).filtered_records.filter
          (fun r => decide (r.cpr_width_pct <
            ({ baseCfg with symbol_universe := ["BBB"] } :
              DerivedConfig).threshold_pct))).map (fun r => r.symbol)
      = [] ∧
    (["BBB"] : List String) ≠ [] := by
  refine ⟨?_, ?_, by simp⟩
  · simp [run_pre_market, computedRecords, universe_refresh, List.lookup,
      baseCfg, computeRecord]
  · simp only [run_pre_market, computedRecords, universe_refresh,
      List.lookup, baseCfg]
    have habs : |(40 : ℚ) / 3| = 40 / 3 := abs_of_nonneg (by norm_num)
    norm_num [computeRecord, compute_cpr, List.filter, habs]

end Spec2Proof

namespace Spec2Proof

/-- C5 as amended: `filtered_records` is the stable CPR-width-ascending
sort of ALL computed records (sortedness, permutation, and stability:
any width-sorted sublist of the computed records — in particular any run
of equal widths in universe order — stays a sublist); the snapshot's
`filtered_symbols` lists all of them, without applying the threshold;
`tradable_records` is the first `top_n` of the sorted records strictly
under the threshold, in sorted order, so every tradable symbol's record
has `cpr_width_pct < threshold_pct`. -/
theorem C5_sort_threshold_topn (cfg : DerivedConfig)
    (table : List (String × OHLC)) (now : ℕ) (fail : String → Bool) :
    (run_pre_market cfg table now fail).filtered_records.Pairwise
        (fun a b => a.cpr_width_pct ≤ b.cpr_width_pct) ∧
    (run_pre_market cfg table now fail).filtered_records.Perm
        (computedRecords cfg table) ∧
    (∀ (l : List DerivedSymbolData), l.Sublist (computedRecords cfg table) →
      l.Pairwise (fun a b => cprLe a b) →
      l.Sublist (run_pre_market cfg table now fail).filtered_records) ∧
    (run_pre_market cfg table now fail).snapshot.filtered_symbols =
      (run_pre_market cfg table now fail).filtered_records.map
        (fun r => r.symbol) ∧
    (run_pre_market cfg table now fail).tradable_records =
      ((run_pre_market cfg table now fail).filtered_records.filter
        (fun r => decide (r.cpr_width_pct < cfg.threshold_pct))).take
        cfg.top_n ∧
    (run_pre_market cfg table now fail).snapshot.tradable_symbols =
      (run_pre_market cfg table now fail).tradable_records.map
        (fun r => r.symbol) ∧
    (∀ r ∈ (run_pre_market cfg table now fail).tradable_records,
      r.cpr_width_pct < cfg.threshold_pct) := by
  refine ⟨?_, ?_, ?_, rfl, rfl, rfl, ?_⟩
  · exact (@List.sorted_mergeSort _ cprLe cprLe_trans cprLe_total
      (computedRecords cfg table)).imp
      (fun h => by simpa [cprLe] using h)
  · exact List.mergeSort_perm (computedRecords cfg table) cprLe
  · intro l hsub hpair
    exact List.sublist_mergeSort cprLe_trans cprLe_total hpair hsub
  · intro r hr
    have hmem : r ∈ (run_pre_market cfg table now fail).filtered_records.filter
        (fun r => decide (r.cpr_width_pct < cfg.threshold_pct)) :=
      List.take_subset _ _ hr
    exact of_decide_eq_true (List.mem_filter.mp hmem).2

/-- Witness for the amended C5: narrow-CPR symbol AAA is tradable and
satisfies the threshold strictly. -/
theorem C5_sort_threshold_topn_witness :
    (computeRecord { baseCfg with symbol_universe := ["AAA"] } "AAA"
        ⟨110, 90, 100⟩).cpr_width_pct <
      ({ baseCfg with symbol_universe := ["AAA"] } :
        DerivedConfig).threshold_pct :=
  (C5_sort_threshold_topn { baseCfg with symbol_universe := ["AAA"] }
      [("AAA", ⟨110, 90, 100⟩)] 0 (fun _ => false)).2.2.2.2.2.2
    (computeRecord { baseCfg with symbol_universe := ["AAA"] } "AAA"
      ⟨110, 90, 100⟩)
    (by
      simp [run_pre_market, computedRecords, universe_refresh, List.lookup,
        baseCfg]
      norm_num [computeRecord, compute_cpr, List.filter])

end Spec2Proof

namespace Spec2Proof

/-- C9 counterexample: not every store persistence call is caught.  With
a universe of one symbol whose `persist_universe_snapshot` call raises,
the `run_pre_market` call ends in a propagated exception — the
unguarded store call on line 189 aborts it — and no snapshot is
published (the outcome holds no published snapshot). -/
theorem C9_counterexample :
    (run_pre_market_call { baseCfg with symbol_universe := ["AAA"] }
        [("AAA", ⟨110, 90, 100⟩)] 0 (fun _ => false) true).2 =
      Except.error "persist_universe_snapshot raised" ∧
    ((run_pre_market_call { baseCfg with symbol_universe := ["AAA"] }
        [("AAA", ⟨110, 90, 100⟩)] 0 (fun _ => false) true).2).toOption =
      none :=
  ⟨rfl, rfl⟩

/-- C9 as amended: a failing `persist_symbol_data` call is logged and
skipped — it never propagates, never aborts the batch, and the symbol
still appears among the in-memory filtered records and in the published
UniverseSnapshot, whose contents are identical under any per-symbol
failure pattern.  The unguarded `persist_universe_snapshot` call is the
exception: its failure propagates out of `run_pre_market` and aborts it
before the snapshot is published, though the in-memory state has
already been fully updated. -/
theorem C9_persist_failure_scoped (cfg : DerivedConfig)
    (table : List (String × OHLC)) (now : ℕ) (fail1 fail2 : String → Bool)
    (sym : String) (o : OHLC)
    (hmem : sym ∈ universe_refresh cfg)
    (hlook : table.lookup sym = some o)
    (hfail : fail1 sym = true) :
    (run_pre_market cfg table now fail1).filtered_records =
        (run_pre_market cfg table now fail2).filtered_records ∧
    (run_pre_market cfg table now fail1).snapshot =
        (run_pre_market cfg table now fail2).snapshot ∧
    computeRecord cfg sym o ∈
        (run_pre_market cfg table now fail1).filtered_records ∧
    sym ∈ (run_pre_market cfg table now fail1).snapshot.filtered_symbols ∧
    sym ∈ (run_pre_market cfg table now fail1).persist_failures ∧
    (run_pre_market_call cfg table now fail1 false).2 =
        Except.ok (run_pre_market cfg table now fail1).snapshot ∧
    (run_pre_market_call cfg table now fail1 true).2 =
        Except.error "persist_universe_snapshot raised" ∧
    (run_pre_market_call cfg table now fail1 true).1 =
        run_pre_market cfg table now fail1 := by
  have hrec : computeRecord cfg sym o ∈ computedRecords cfg table :=
    List.mem_filterMap.mpr ⟨sym, hmem, by rw [hlook]; rfl⟩
  have hsorted : computeRecord cfg sym o ∈
      (computedRecords cfg table).mergeSort cprLe :=
    List.mem_mergeSort.mpr hrec
  refine ⟨rfl, rfl, hsorted, ?_, ?_, rfl, rfl, rfl⟩
  · exact List.mem_map.mpr ⟨computeRecord cfg sym o, hsorted, rfl⟩
  · refine List.mem_map.mpr ⟨computeRecord cfg sym o, ?_, rfl⟩
    refine List.mem_filter.mpr ⟨hrec, ?_⟩
    simp [persist_symbol_data, computeRecord, hfail]

/-- Witness for the amended C9: the per-symbol persistence call for AAA
raises and AAA is still filtered, published, and recorded as a failure;
with the snapshot-persist call raising instead, the call errors out and
the in-memory state is nonetheless updated. -/
theorem C9_persist_failure_scoped_witness :
    (run_pre_market { baseCfg with symbol_universe := ["AAA"] }
        [("AAA", ⟨110, 90, 100⟩)] 3 (fun s => decide (s = "AAA"))).filtered_records =
      (run_pre_market { baseCfg with symbol_universe := ["AAA"] }
        [("AAA", ⟨110, 90, 100⟩)] 3 (fun _ => false)).filtered_records ∧
    (run_pre_market { baseCfg with symbol_universe := ["AAA"] }
        [("AAA", ⟨110, 90, 100⟩)] 3 (fun s => decide (s = "AAA"))).snapshot =
      (run_pre_market { baseCfg with symbol_universe := ["AAA"] }
        [("AAA", ⟨110, 90, 100⟩)] 3 (fun _ => false)).snapshot ∧
    computeRecord { baseCfg with symbol_universe := ["AAA"] } "AAA"
        ⟨110, 90, 100⟩ ∈
      (run_pre_market { baseCfg with symbol_universe := ["AAA"] }
        [("AAA", ⟨110, 90, 100⟩)] 3 (fun s => decide (s = "AAA"))).filtered_records ∧
    "AAA" ∈ (run_pre_market { baseCfg with symbol_universe := ["AAA"] }
        [("AAA", ⟨110, 90, 100⟩)] 3 (fun s => decide (s = "AAA"))).snapshot.filtered_symbols ∧
    "AAA" ∈ (run_pre_market { baseCfg with symbol_universe := ["AAA"] }
        [("AAA", ⟨110, 90, 100⟩)] 3 (fun s => decide (s = "AAA"))).persist_failures ∧
    (run_pre_market_call { baseCfg with symbol_universe := ["AAA"] }
        [("AAA", ⟨110, 90, 100⟩)] 3 (fun s => decide (s = "AAA")) false).2 =
      Except.ok (run_pre_market { baseCfg with symbol_universe := ["AAA"] }
        [("AAA", ⟨110, 90, 100⟩)] 3 (fun s => decide (s = "AAA"))).snapshot ∧
    (run_pre_market_call { baseCfg with symbol_universe := ["AAA"] }
        [("AAA", ⟨110, 90, 100⟩)] 3 (fun s => decide (s = "AAA")) true).2 =
      Except.error "persist_universe_snapshot raised" ∧
    (run_pre_market_call { baseCfg with symbol_universe := ["AAA"] }
        [("AAA", ⟨110, 90, 100⟩)] 3 (fun s => decide (s = "AAA")) true).1 =
      run_pre_market { baseCfg with symbol_universe := ["AAA"] }
        [("AAA", ⟨110, 90, 100⟩)] 3 (fun s => decide (s = "AAA")) :=
  C9_persist_failure_scoped { baseCfg with symbol_universe := ["AAA"] }
    [("AAA", ⟨110, 90, 100⟩)] 3 (fun s => decide (s = "AAA")) (fun _ => false)
    "AAA" ⟨110, 90, 100⟩
    (by simp [universe_refresh, baseCfg])
    (by simp [List.lookup])
    (by simp)

/-- C6: on "session started" with an empty tradable set nothing is
published (suppressed, not emitted empty); with a non-empty tradable set
exactly one GapSnapshotEvent is published, keyed by exactly the tradable
symbols, each entry carrying
`gap_pct = (today_open - prev_close) / prev_close * 100` and
`gap_pct_abs = |gap_pct|`, with `today_open` from the session context
and `prev_close` from the symbol's derived record. -/
theorem C6_gap_snapshot (tradable : List DerivedSymbolData)
    (today_open : ℚ) (ts : ℕ) :
    (tradable = [] → on_session_start tradable today_open ts = none) ∧
    (tradable ≠ [] →
      on_session_start tradable today_open ts =
        some ⟨ts, tradable.map (fun r =>
          (r.symbol, GapEntry.mk r.prev_close today_open
            ((today_open - r.prev_close) / r.prev_close * 100)
            |(today_open - r.prev_close) / r.prev_close * 100|))⟩ ∧
      (on_session_start tradable today_open ts).map
          (fun g => g.gaps.map Prod.fst) =
        some (tradable.map (fun r => r.symbol))) := by
  constructor
  · intro h; subst h; rfl
  · intro h
    obtain ⟨r0, rest, rfl⟩ := List.exists_cons_of_ne_nil h
    constructor
    · simp [on_session_start]
    · simp [on_session_start]

/-- Witness for C6: empty tradables publish nothing; the spec's worked
example (prev_close 105, today_open 110.25) gives gap_pct 5 and
gap_pct_abs 5. -/
theorem C6_gap_snapshot_witness :
    on_session_start [] (441/4) 7 = none ∧
    on_session_start [computeRecord baseCfg "AAA" ⟨110, 100, 105⟩] (441/4) 7 =
      some ⟨7, [("AAA", GapEntry.mk 105 (441/4) 5 5)]⟩ := by
  constructor
  · exact (C6_gap_snapshot [] (441/4) 7).1 rfl
  · have h := ((C6_gap_snapshot
        [computeRecord baseCfg "AAA" ⟨110, 100, 105⟩] (441/4) 7).2
        (by simp)).1
    rw [h]
    norm_num [computeRecord, compute_cpr]

end Spec2Proof

namespace Spec2Proof

/-! ## Derived data store (src/core/derived_data/derived_data_store.py) -/

/-- `InMemoryDerivedDataStore._symbols` dict, as an association list. -/
def get_symbol_data (store : List (String × DerivedSymbolData))
    (symbol : String) : Option DerivedSymbolData :=
  store.lookup symbol

/-- `InMemoryDerivedDataStore.get_target_by_step` (any `side` other than
`"pos"` selects the negative range, exactly as the Python `else`). -/
def get_target_by_step (store : List (String × DerivedSymbolData))
    (symbol : String) (step_index : ℕ) (side : String) : Option ℚ :=
  match get_symbol_data store symbol with
  | none => none
  | some record =>
      if side = "pos" then record.target_range_pos[step_index]?
      else record.target_range_neg[step_index]?

/-- `InMemoryDerivedDataStore.get_stop_for_step`:
`target_pct = target_price / prev_close - 1`;
`stop_price = prev_close * (1 - target_pct)`. -/
def get_stop_for_step (store : List (String × DerivedSymbolData))
    (symbol : String) (step_index : ℕ) (side : String) : Option ℚ :=
  match get_symbol_data store symbol with
  | none => none
  | some record =>
      match get_target_by_step store symbol step_index side with
      | none => none
      | some target_price =>
          let target_pct := target_price / record.prev_close - 1
          some (record.prev_close * (1 - target_pct))

/-- C8: for a stored record with non-zero `prev_close` and a target
defined at the requested step and side, the stop is `prev_close`
mirrored around the target's percentage offset —
`stop = 2 * prev_close - target`; in ladder form, a target
`prev_close * (1 + k)` pairs with stop `prev_close * (1 - k)` and a
target `prev_close * (1 - k)` pairs with stop `prev_close * (1 + k)`;
and the pre-market records' target ladders are exactly of that shape,
`close * (1 ± i * step)` at index `i`. -/
theorem C8_stop_mirror (store : List (String × DerivedSymbolData))
    (symbol : String) (step_index : ℕ) (side : String)
    (record : DerivedSymbolData) (target : ℚ)
    (hrec : get_symbol_data store symbol = some record)
    (hpc : record.prev_close ≠ 0)
    (htgt : get_target_by_step store symbol step_index side = some target) :
    get_stop_for_step store symbol step_index side =
        some (2 * record.prev_close - target) ∧
    (∀ k : ℚ, target = record.prev_close * (1 + k) →
      get_stop_for_step store symbol step_index side =
        some (record.prev_close * (1 - k))) ∧
    (∀ k : ℚ, target = record.prev_close * (1 - k) →
      get_stop_for_step store symbol step_index side =
        some (record.prev_close * (1 + k))) ∧
    (∀ (cfg : DerivedConfig) (s : String) (ohlc : OHLC) (i : ℕ),
      i < numTargetSteps cfg →
      (computeRecord cfg s ohlc).target_range_pos[i]? =
        some (ohlc.close * (1 + (i : ℚ) * (cfg.target_step_pct / 100))) ∧
      (computeRecord cfg s ohlc).target_range_neg[i]? =
        some (ohlc.close * (1 - (i : ℚ) * (cfg.target_step_pct / 100)))) := by
  have hmain : get_stop_for_step store symbol step_index side =
      some (2 * record.prev_close - target) := by
    simp only [get_stop_for_step, hrec, htgt]
    congr 1
    field_simp
    ring
  refine ⟨hmain, ?_, ?_, ?_⟩
  · intro k hk; rw [hmain, hk]; congr 1; ring
  · intro k hk; rw [hmain, hk]; congr 1; ring
  · intro cfg s ohlc i hi
    have h1 : (List.range (numTargetSteps cfg))[i]? = some i :=
      List.getElem?_range hi
    constructor <;>
      · simp only [computeRecord, compute_target_ranges]
        rw [List.getElem?_map, List.getElem?_map, h1]
        rfl

end Spec2Proof

namespace Spec2Proof

/-- Witness for C8: AAA's step-1 positive target 100 · (1 + 0.25 %) =
401/4 pairs with stop 399/4 = 100 · (1 − 0.25 %). -/
theorem C8_stop_mirror_witness :
    get_stop_for_step
        [("AAA", computeRecord baseCfg "AAA" ⟨110, 90, 100⟩)]
        "AAA" 1 "pos" = some (399/4) := by
  have hn : numTargetSteps baseCfg = 81 := by
    norm_num [numTargetSteps, baseCfg, round_eq]
    rfl
  have hrec : get_symbol_data
      [("AAA", computeRecord baseCfg "AAA" ⟨110, 90, 100⟩)] "AAA" =
      some (computeRecord baseCfg "AAA" ⟨110, 90, 100⟩) := by
    simp [get_symbol_data, List.lookup]
  have hstep : (1 : ℕ) < numTargetSteps baseCfg := by rw [hn]; norm_num
  have hladder := List.getElem?_range hstep
  have htgt : get_target_by_step
      [("AAA", computeRecord baseCfg "AAA" ⟨110, 90, 100⟩)] "AAA" 1 "pos" =
      some (401/4) := by
    simp only [get_target_by_step, hrec, if_pos]
    simp only [computeRecord, compute_target_ranges]
    rw [List.getElem?_map, List.getElem?_map, hladder]
    norm_num [baseCfg]
  have h := (C8_stop_mirror
        [("AAA", computeRecord baseCfg "AAA" ⟨110, 90, 100⟩)]
        "AAA" 1 "pos" (computeRecord baseCfg "AAA" ⟨110, 90, 100⟩) (401/4)
        hrec (by norm_num [computeRecord]) htgt).1
  rw [h]
  norm_num [computeRecord]

end Spec2Proof

namespace Spec2Proof

/-! ## Dummy strategy (src/strategy/dummy_strategy.py,
src/strategy/intent_events.py) -/

inductive Side where
  | LONG
  | SHORT
  deriving DecidableEq

/-- TriggerSpec; `meta` (free-form debug dict) is omitted. -/
structure TriggerSpec where
  side : Side
  step_index : ℕ
  timeout_seconds : ℕ
  valid_until : Option ℕ
  priority : ℤ
  deriving DecidableEq

/-- Intent id, as the components of the Python formatted string
`"{strategy_id}:{symbol}:step{step_index}:{now}"`. -/
structure IntentId where
  strategy_id : String
  symbol : String
  step_index : ℕ
  created_ts : ℕ
  deriving DecidableEq

structure IntentEvent where
  intent_id : IntentId
  strategy_id : String
  symbol : String
  triggers : List TriggerSpec
  auto_advance : Bool
  created_at : ℕ
  correlation_id : Option String
  session_date : Option String
  deriving DecidableEq

/-- Runtime state of `DummyStrategy`.  `now` values are passed into the
handlers explicitly, standing for the `datetime.now(timezone.utc)` reads. -/
structure StrategyState where
  strategy_id : String
  active_symbol : Option String
  step_index : ℕ
  active_intent_id : Option IntentId
  active : Bool
  auto_advance : Bool
  flip_timeout_seconds : ℕ
  deriving DecidableEq

/-- Constructor defaults: no active symbol, `initial_step = 1`, no
active intent, active, `flip_timeout_seconds = 60`. -/
def initStrategy (strategy_id : String) (auto_advance : Bool) :
    StrategyState :=
  ⟨strategy_id, none, 1, none, true, auto_advance, 60⟩

/-- `DummyStrategy._make_intent_id`. -/
def make_intent_id (st : StrategyState) (symbol : String)
    (step_index now : ℕ) : IntentId :=
  ⟨st.strategy_id, symbol, step_index, now⟩

/-- `DummyStrategy._build_intent`: both a LONG and a SHORT trigger at the
given step. -/
def build_intent (st : StrategyState) (symbol : String)
    (step_index now : ℕ) : IntentEvent :=
  { intent_id := make_intent_id st symbol step_index now
    strategy_id := st.strategy_id
    symbol := symbol
    triggers :=
      [⟨.LONG, step_index, st.flip_timeout_seconds, none, 0⟩,
       ⟨.SHORT, step_index, st.flip_timeout_seconds, none, 0⟩]
    auto_advance := st.auto_advance
    created_at := now
    correlation_id := none
    session_date := none }

/-- Comparator of `sorted(event.gaps.items(), key=… gap_pct_abs)`. -/
def gapAbsLe (a b : String × GapEntry) : Bool :=
  decide (a.2.gap_pct_abs ≤ b.2.gap_pct_abs)

theorem gapAbsLe_trans : ∀ (a b c : String × GapEntry),
    gapAbsLe a b → gapAbsLe b c → gapAbsLe a c := by
  intro a b c hab hbc
  simp only [gapAbsLe, decide_eq_true_eq] at *
  exact le_trans hab hbc

theorem gapAbsLe_total : ∀ (a b : String × GapEntry),
    gapAbsLe a b || gapAbsLe b a := by
  intro a b
  simp only [gapAbsLe, Bool.or_eq_true, decide_eq_true_eq]
  exact le_total a.2.gap_pct_abs b.2.gap_pct_abs

/-- `DummyStrategy._on_gap_snapshot`: ignore when inactive or when the
gaps dict is empty; otherwise pick the stable-sort minimum of
`gap_pct_abs` (dict iteration order breaks ties), reset `step_index`
to 1, publish a fresh step-1 intent and record its id as active. -/
def on_gap_snapshot (st : StrategyState) (gaps : List (String × GapEntry))
    (now : ℕ) : StrategyState × List IntentEvent :=
  if st.active = false then (st, [])
  else if gaps.isEmpty then (st, [])
  else
    match gaps.mergeSort gapAbsLe with
    | [] => (st, [])
    | (chosen_symbol, _) :: _ =>
        let st' := { st with
          active_symbol := some chosen_symbol
          step_index := 1 }
        let intent := build_intent st' chosen_symbol 1 now
        ({ st' with active_intent_id := some intent.intent_id }, [intent])

/-- `DummyStrategy._on_order_fill`: `fill_intent_id` is the id the
duck-typed extraction found on the event (`none` when no shape
matched). -/
def on_order_fill (st : StrategyState) (fill_intent_id : Option IntentId)
    (now : ℕ) : StrategyState × List IntentEvent :=
  if st.active = false ∨ st.active_intent_id = none then (st, [])
  else if fill_intent_id ≠ st.active_intent_id then (st, [])
  else if st.auto_advance then
    match st.active_symbol with
    | none => (st, [])
    | some sym =>
        let st' := { st with step_index := st.step_index + 1 }
        let intent := build_intent st' sym st'.step_index now
        ({ st' with active_intent_id := some intent.intent_id }, [intent])
  else (st, [])

/-- `DummyStrategy._on_session_end`. -/
def on_session_end (st : StrategyState) : StrategyState × List IntentEvent :=
  ({ st with
      active := false
      active_symbol := none
      active_intent_id := none }, [])

/-- Events the strategy subscribes to. -/
inductive StrategyInput where
  | gapSnapshot (gaps : List (String × GapEntry)) (now : ℕ)
  | orderFill (fill_intent_id : Option IntentId) (now : ℕ)
  | sessionEnd

def strategy_step (st : StrategyState) :
    StrategyInput → StrategyState × List IntentEvent
  | .gapSnapshot gaps now => on_gap_snapshot st gaps now
  | .orderFill i now => on_order_fill st i now
  | .sessionEnd => on_session_end st

def strategy_run (st : StrategyState) :
    List StrategyInput → StrategyState × List IntentEvent
  | [] => (st, [])
  | i :: is =>
      let p := strategy_step st i
      let q := strategy_run p.1 is
      (q.1, p.2 ++ q.2)

/-- Deactivation is absorbing: an inactive strategy publishes nothing
and stays inactive, on any event. -/
theorem strategy_step_inactive (st : StrategyState) (i : StrategyInput)
    (h : st.active = false) :
    (strategy_step st i).1.active = false ∧ (strategy_step st i).2 = [] := by
  cases i with
  | gapSnapshot gaps now => simp [strategy_step, on_gap_snapshot, h]
  | orderFill fid now => simp [strategy_step, on_order_fill, h]
  | sessionEnd => simp [strategy_step, on_session_end]

theorem strategy_run_inactive (st : StrategyState)
    (evs : List StrategyInput) (h : st.active = false) :
    (strategy_run st evs).2 = [] := by
  induction evs generalizing st with
  | nil => rfl
  | cons i is ih =>
      have hstep := strategy_step_inactive st i h
      simp [strategy_run, hstep.2, ih _ hstep.1]

end Spec2Proof

namespace Spec2Proof

/-- C7: an active, auto-advancing strategy receiving a non-empty gap
snapshot publishes exactly one intent at step 1 with exactly one LONG
and one SHORT trigger, for a symbol of minimum `gap_pct_abs`, and
records its id as active; a fill carrying that active id then publishes
exactly one step-2 intent for the same symbol; and after a session-end
signal the strategy publishes nothing more, whatever gap snapshots or
fills follow. -/
theorem C7_intent_stepping (sid : String) (gaps : List (String × GapEntry))
    (now1 now2 : ℕ) (hne : gaps ≠ []) :
    ∃ st1 intent1,
      on_gap_snapshot (initStrategy sid true) gaps now1 = (st1, [intent1]) ∧
      intent1.triggers =
        [⟨.LONG, 1, 60, none, 0⟩, ⟨.SHORT, 1, 60, none, 0⟩] ∧
      (∃ e, (intent1.symbol, e) ∈ gaps ∧
        ∀ p ∈ gaps, e.gap_pct_abs ≤ p.2.gap_pct_abs) ∧
      st1.active_intent_id = some intent1.intent_id ∧
      ∃ st2 intent2,
        on_order_fill st1 (some intent1.intent_id) now2 = (st2, [intent2]) ∧
        intent2.symbol = intent1.symbol ∧
        intent2.triggers =
          [⟨.LONG, 2, 60, none, 0⟩, ⟨.SHORT, 2, 60, none, 0⟩] ∧
        ∀ (evs : List StrategyInput),
          (strategy_run (on_session_end st2).1 evs).2 = [] := by
  have hsort_ne : gaps.mergeSort gapAbsLe ≠ [] := by
    intro h
    have hperm := List.mergeSort_perm gaps gapAbsLe
    rw [h] at hperm
    exact hne hperm.nil_eq.symm
  obtain ⟨⟨sym, e0⟩, rest, hsort⟩ := List.exists_cons_of_ne_nil hsort_ne
  have hpair := @List.sorted_mergeSort _ gapAbsLe
    gapAbsLe_trans gapAbsLe_total gaps
  rw [hsort] at hpair
  have hmin : ∀ p ∈ gaps, e0.gap_pct_abs ≤ p.2.gap_pct_abs := by
    intro p hp
    have hp' : p ∈ ((sym, e0) :: rest) := by
      rw [← hsort]; exact List.mem_mergeSort.mpr hp
    rcases List.mem_cons.mp hp' with h | h
    · rw [h]
    · exact of_decide_eq_true ((List.pairwise_cons.mp hpair).1 p h)
  have hmem0 : (sym, e0) ∈ gaps := by
    have hm : (sym, e0) ∈ gaps.mergeSort gapAbsLe := by
      rw [hsort]; exact List.mem_cons_self _ _
    exact List.mem_mergeSort.mp hm
  have hempty : gaps.isEmpty = false := by
    cases gaps with
    | nil => exact absurd rfl hne
    | cons a l => rfl
  set iA : IntentEvent :=
    build_intent ⟨sid, some sym, 1, none, true, true, 60⟩ sym 1 now1 with hiA
  set stA : StrategyState :=
    ⟨sid, some sym, 1, some iA.intent_id, true, true, 60⟩ with hstA
  have hgap1 : on_gap_snapshot (initStrategy sid true) gaps now1 =
      (stA, [iA]) := by
    simp only [on_gap_snapshot, initStrategy, hempty, hsort]
    rfl
  set iB : IntentEvent :=
    build_intent ⟨sid, some sym, 2, some iA.intent_id, true, true, 60⟩
      sym 2 now2 with hiB
  set stB : StrategyState :=
    ⟨sid, some sym, 2, some iB.intent_id, true, true, 60⟩ with hstB
  have hfill : on_order_fill stA (some iA.intent_id) now2 = (stB, [iB]) := by
    unfold on_order_fill
    rw [if_neg (by simp [hstA]), if_neg (by simp [hstA])]
    rfl
  refine ⟨stA, iA, hgap1, rfl, ⟨e0, hmem0, hmin⟩, rfl, stB, iB, hfill, rfl,
    rfl, ?_⟩
  intro evs
  exact strategy_run_inactive _ evs rfl

end Spec2Proof

namespace Spec2Proof

/-- Witness for C7: two symbols with abs gaps 0.5 and 1.5. -/
theorem C7_intent_stepping_witness :
    ∃ st1 intent1,
      on_gap_snapshot (initStrategy "DUMMY" true)
          [("A", ⟨100, 201/2, 1/2, 1/2⟩), ("B", ⟨100, 203/2, 3/2, 3/2⟩)] 11 =
        (st1, [intent1]) ∧
      intent1.triggers =
        [⟨.LONG, 1, 60, none, 0⟩, ⟨.SHORT, 1, 60, none, 0⟩] ∧
      (∃ e, (intent1.symbol, e) ∈
          [("A", (⟨100, 201/2, 1/2, 1/2⟩ : GapEntry)),
           ("B", ⟨100, 203/2, 3/2, 3/2⟩)] ∧
        ∀ p ∈ [("A", (⟨100, 201/2, 1/2, 1/2⟩ : GapEntry)),
               ("B", ⟨100, 203/2, 3/2, 3/2⟩)],
          e.gap_pct_abs ≤ p.2.gap_pct_abs) ∧
      st1.active_intent_id = some intent1.intent_id ∧
      ∃ st2 intent2,
        on_order_fill st1 (some intent1.intent_id) 12 = (st2, [intent2]) ∧
        intent2.symbol = intent1.symbol ∧
        intent2.triggers =
          [⟨.LONG, 2, 60, none, 0⟩, ⟨.SHORT, 2, 60, none, 0⟩] ∧
        ∀ (evs : List StrategyInput),
          (strategy_run (on_session_end st2).1 evs).2 = [] :=
  C7_intent_stepping "DUMMY"
    [("A", ⟨100, 201/2, 1/2, 1/2⟩), ("B", ⟨100, 203/2, 3/2, 3/2⟩)]
    11 12 (by simp)

/-- C10: a further non-empty gap snapshot received while Armed is not
ignored — selection re-runs, `step_index` resets to 1, exactly one fresh
step-1 intent is published (for a minimum-`gap_pct_abs` symbol of the
new snapshot) and its id overwrites the active one; a fill that
acknowledges the superseded intent is then ignored (no publication, no
state change).  The state holds at most one active intent id by
construction (a single optional field). -/
theorem C10_rearm_on_new_snapshot (sid : String)
    (gaps1 gaps2 : List (String × GapEntry)) (now1 now2 now3 : ℕ)
    (hne1 : gaps1 ≠ []) (hne2 : gaps2 ≠ []) (hnow : now1 ≠ now2) :
    ∃ st1 i1,
      on_gap_snapshot (initStrategy sid true) gaps1 now1 = (st1, [i1]) ∧
      ∃ st2 i2,
        on_gap_snapshot st1 gaps2 now2 = (st2, [i2]) ∧
        i2.triggers = [⟨.LONG, 1, 60, none, 0⟩, ⟨.SHORT, 1, 60, none, 0⟩] ∧
        st2.step_index = 1 ∧
        st2.active_intent_id = some i2.intent_id ∧
        st2.active_symbol = some i2.symbol ∧
        (∃ e, (i2.symbol, e) ∈ gaps2 ∧
          ∀ p ∈ gaps2, e.gap_pct_abs ≤ p.2.gap_pct_abs) ∧
        i2.intent_id ≠ i1.intent_id ∧
        on_order_fill st2 (some i1.intent_id) now3 = (st2, []) := by
  -- first snapshot: arm on gaps1
  have hsort_ne1 : gaps1.mergeSort gapAbsLe ≠ [] := by
    intro h
    have hperm := List.mergeSort_perm gaps1 gapAbsLe
    rw [h] at hperm
    exact hne1 hperm.nil_eq.symm
  obtain ⟨⟨sym1, e1⟩, rest1, hsort1⟩ := List.exists_cons_of_ne_nil hsort_ne1
  have hempty1 : gaps1.isEmpty = false := by
    cases gaps1 with
    | nil => exact absurd rfl hne1
    | cons a l => rfl
  set iA : IntentEvent :=
    build_intent ⟨sid, some sym1, 1, none, true, true, 60⟩ sym1 1 now1
    with hiA
  set stA : StrategyState :=
    ⟨sid, some sym1, 1, some iA.intent_id, true, true, 60⟩ with hstA
  have hgap1 : on_gap_snapshot (initStrategy sid true) gaps1 now1 =
      (stA, [iA]) := by
    simp only [on_gap_snapshot, initStrategy, hempty1, hsort1]
    rfl
  -- second snapshot: re-arm on gaps2
  have hsort_ne2 : gaps2.mergeSort gapAbsLe ≠ [] := by
    intro h
    have hperm := List.mergeSort_perm gaps2 gapAbsLe
    rw [h] at hperm
    exact hne2 hperm.nil_eq.symm
  obtain ⟨⟨sym2, e2⟩, rest2, hsort2⟩ := List.exists_cons_of_ne_nil hsort_ne2
  have hpair2 := @List.sorted_mergeSort _ gapAbsLe
    gapAbsLe_trans gapAbsLe_total gaps2
  rw [hsort2] at hpair2
  have hmin2 : ∀ p ∈ gaps2, e2.gap_pct_abs ≤ p.2.gap_pct_abs := by
    intro p hp
    have hp' : p ∈ ((sym2, e2) :: rest2) := by
      rw [← hsort2]; exact List.mem_mergeSort.mpr hp
    rcases List.mem_cons.mp hp' with h | h
    · rw [h]
    · exact of_decide_eq_true ((List.pairwise_cons.mp hpair2).1 p h)
  have hmem2 : (sym2, e2) ∈ gaps2 := by
    have hm : (sym2, e2) ∈ gaps2.mergeSort gapAbsLe := by
      rw [hsort2]; exact List.mem_cons_self _ _
    exact List.mem_mergeSort.mp hm
  have hempty2 : gaps2.isEmpty = false := by
    cases gaps2 with
    | nil => exact absurd rfl hne2
    | cons a l => rfl
  set iC : IntentEvent :=
    build_intent ⟨sid, some sym2, 1, some iA.intent_id, true, true, 60⟩
      sym2 1 now2 with hiC
  set stC : StrategyState :=
    ⟨sid, some sym2, 1, some iC.intent_id, true, true, 60⟩ with hstC
  have hgap2 : on_gap_snapshot stA gaps2 now2 = (stC, [iC]) := by
    simp only [on_gap_snapshot, hstA, hempty2, hsort2]
    rfl
  have hid_ne : iC.intent_id ≠ iA.intent_id := by
    intro h
    exact hnow (congrArg IntentId.created_ts h).symm
  have hstale : on_order_fill stC (some iA.intent_id) now3 = (stC, []) := by
    unfold on_order_fill
    rw [if_neg (by simp [hstC]), if_pos (by simpa [hstC] using Ne.symm hid_ne)]
  exact ⟨stA, iA, hgap1, stC, iC, hgap2, rfl, rfl, rfl, rfl,
    ⟨e2, hmem2, hmin2⟩, hid_ne, hstale⟩

/-- Witness for C10: re-arm from A to B, then ignore the stale fill. -/
theorem C10_rearm_on_new_snapshot_witness :
    ∃ st1 i1,
      on_gap_snapshot (initStrategy "DUMMY" true)
          [("A", ⟨100, 201/2, 1/2, 1/2⟩)] 1 = (st1, [i1]) ∧
      ∃ st2 i2,
        on_gap_snapshot st1 [("B", ⟨100, 203/2, 3/2, 3/2⟩)] 2 = (st2, [i2]) ∧
        i2.triggers = [⟨.LONG, 1, 60, none, 0⟩, ⟨.SHORT, 1, 60, none, 0⟩] ∧
        st2.step_index = 1 ∧
        st2.active_intent_id = some i2.intent_id ∧
        st2.active_symbol = some i2.symbol ∧
        (∃ e, (i2.symbol, e) ∈ [("B", (⟨100, 203/2, 3/2, 3/2⟩ : GapEntry))] ∧
          ∀ p ∈ [("B", (⟨100, 203/2, 3/2, 3/2⟩ : GapEntry))],
            e.gap_pct_abs ≤ p.2.gap_pct_abs) ∧
        i2.intent_id ≠ i1.intent_id ∧
        on_order_fill st2 (some i1.intent_id) 3 = (st2, []) :=
  C10_rearm_on_new_snapshot "DUMMY"
    [("A", ⟨100, 201/2, 1/2, 1/2⟩)] [("B", ⟨100, 203/2, 3/2, 3/2⟩)]
    1 2 3 (by simp) (by simp) (by norm_num)

end Spec2Proof
